import Mathlib

/-!
Shallow embedding of the Jobscape employer trust, verification and quota
engine, translated from the Python source (SQLAlchemy models, CRUD modules,
FastAPI route handlers and the scheduled job-closure task), together with
theorems checking the engine's specification claims.

Conventions of the embedding:
* machine integers are `Int` (Python ints are unbounded, counters may in
  principle go negative, so `Int` is the faithful choice);
* timestamps are epoch milliseconds (`Int`); `timedelta(minutes=15)` is
  `900000` ms and `timedelta(minutes=2)` is `120000` ms;
* `secrets.randbelow(10)` draws are modelled by an oracle `rand : Nat → Nat`
  reduced mod 10 (the library call always returns a value below 10);
* raising an exception before any mutation is modelled by returning the
  error (and, where a claim speaks about the unchanged state, by pairing the
  outcome with the resulting employer state);
* Python truthiness of optional strings / ints is modelled explicitly
  (`None` and `""`/`0` are falsy).
-/

namespace Jobscape

/-- `SubscriptionTier` enum from `app/models/subscription.py`. -/
inductive SubscriptionTier
  | FREE
  | BASIC
  | PREMIUM
  | BUSINESS
  deriving DecidableEq, Repr

/-- The `.value` string of a `SubscriptionTier` member. -/
def SubscriptionTier.value : SubscriptionTier → String
  | .FREE => "FREE"
  | .BASIC => "BASIC"
  | .PREMIUM => "PREMIUM"
  | .BUSINESS => "BUSINESS"

/-- `SubscriptionStatus` enum from `app/models/subscription.py`. -/
inductive SubscriptionStatus
  | ACTIVE
  | EXPIRED
  | CANCELLED
  | PENDING
  deriving DecidableEq, Repr

/-- `UserRole` values relevant to the engine (from `app/models/user.py`). -/
inductive UserRole
  | ADMIN
  | EMPLOYER
  | JOB_SEEKER
  deriving DecidableEq, Repr

/--
`JOB_POSTING_LIMITS` from `app/models/subscription.py`, as the lookup
`JOB_POSTING_LIMITS.get(sub_tier, {}).get(ver_tier, 0)` used by
`Employer.get_job_posting_limit`: unknown subscription tier or unknown
verification tier fall back to `0`.
-/
def JOB_POSTING_LIMITS (sub_tier : String) (ver_tier : String) : Int :=
  if sub_tier = "FREE" then
    if ver_tier = "UNVERIFIED" then 0
    else if ver_tier = "EMAIL_VERIFIED" then 2
    else if ver_tier = "DOCUMENT_VERIFIED" then 3
    else if ver_tier = "FULLY_VERIFIED" then 5
    else 0
  else if sub_tier = "BASIC" then
    if ver_tier = "UNVERIFIED" then 0
    else if ver_tier = "EMAIL_VERIFIED" then 5
    else if ver_tier = "DOCUMENT_VERIFIED" then 10
    else if ver_tier = "FULLY_VERIFIED" then 15
    else 0
  else if sub_tier = "PREMIUM" then
    if ver_tier = "UNVERIFIED" then 0
    else if ver_tier = "EMAIL_VERIFIED" then 20
    else if ver_tier = "DOCUMENT_VERIFIED" then 50
    else if ver_tier = "FULLY_VERIFIED" then 100
    else 0
  else if sub_tier = "BUSINESS" then
    if ver_tier = "UNVERIFIED" then 0
    else if ver_tier = "EMAIL_VERIFIED" then 50
    else if ver_tier = "DOCUMENT_VERIFIED" then 150
    else if ver_tier = "FULLY_VERIFIED" then -1
    else 0
  else 0

/--
The `Employer` aggregate from `app/models/employer.py`, restricted to the
fields read or written by the trust / verification / quota engine.
`verification_tier` is a raw string, exactly as in the source model.
-/
structure Employer where
  id : Nat
  work_email : String
  work_email_verified : Bool
  work_email_verification_token : Option String
  work_email_verification_sent_at : Option Int
  work_email_verified_at : Option Int
  company_website : Option String
  verification_tier : String
  verification_notes : Option String
  verified_at : Option Int
  verified_by : Option Nat
  trust_score : Int
  subscription_tier : SubscriptionTier
  subscription_status : SubscriptionStatus
  active_job_posts_count : Int
  total_job_posts_count : Int
  profile_completed : Bool
  deriving DecidableEq, Repr

/--
The `Job` entity from `app/models/job.py`, restricted to the closure flags
and deadline read or written by the engine.
-/
structure Job where
  id : Nat
  employer_id : Nat
  is_active : Bool
  is_closed : Bool
  application_deadline : Int
  closed_at : Option Int
  closure_reason : Option String
  deriving DecidableEq, Repr

/-- Python truthiness of an optional string (`None` and `""` are falsy). -/
def strTruthy : Option String → Bool
  | none => false
  | some s => !(s = "")

/-- Python truthiness of an optional int (`None` and `0` are falsy). -/
def intTruthy : Option Int → Bool
  | none => false
  | some n => !(n = 0)

/--
`Employer.get_job_posting_limit` from `app/models/employer.py`: looks up
the quota matrix at (subscription tier value, verification tier).
-/
def Employer.get_job_posting_limit (e : Employer) : Int :=
  JOB_POSTING_LIMITS e.subscription_tier.value e.verification_tier

/--
`Employer.can_post_job` from `app/models/employer.py`: subscription status
gate, verification-tier gates, then the quota-matrix limit (`-1` meaning
unlimited, otherwise `active_job_posts_count < limit`).
-/
def Employer.can_post_job (e : Employer) : Bool × String :=
  if e.subscription_status ≠ SubscriptionStatus.ACTIVE then
    (false, "Subscription is not active")
  else if e.verification_tier = "UNVERIFIED" then
    (false, "Please verify your work email first")
  else if e.verification_tier = "SUSPENDED" then
    (false, "Account is suspended")
  else if e.verification_tier = "REJECTED" then
    (false, "Verification was rejected. Please contact support")
  else
    let limit := e.get_job_posting_limit
    if limit = -1 then
      (true, "Unlimited job postings")
    else if e.active_job_posts_count < limit then
      let remaining := limit - e.active_job_posts_count
      (true, "Can post (" ++ toString remaining ++ " remaining out of "
        ++ toString limit ++ ")")
    else
      (false, "Job posting limit reached (" ++ toString e.active_job_posts_count
        ++ "/" ++ toString limit
        ++ "). Upgrade subscription or verification tier.")

/-- `Employer.increment_job_counter` from `app/models/employer.py`. -/
def Employer.increment_job_counter (e : Employer) : Employer :=
  { e with
    active_job_posts_count := e.active_job_posts_count + 1
    total_job_posts_count := e.total_job_posts_count + 1 }

/-- `Employer.decrement_job_counter` from `app/models/employer.py`. -/
def Employer.decrement_job_counter (e : Employer) : Employer :=
  if e.active_job_posts_count > 0 then
    { e with active_job_posts_count := e.active_job_posts_count - 1 }
  else
    e

/--
A newly registered employer, per `employer_crud.create_or_update_employer_registration`
together with the column defaults of `app/models/employer.py`
(tier `"UNVERIFIED"`, `trust_score = 20`, both job counters `0`).
-/
def create_employer (id : Nat) (work_email : String)
    (company_website : Option String) : Employer :=
  { id := id
    work_email := work_email
    work_email_verified := false
    work_email_verification_token := none
    work_email_verification_sent_at := none
    work_email_verified_at := none
    company_website := company_website
    verification_tier := "UNVERIFIED"
    verification_notes := none
    verified_at := none
    verified_by := none
    trust_score := 20
    subscription_tier := SubscriptionTier.FREE
    subscription_status := SubscriptionStatus.ACTIVE
    active_job_posts_count := 0
    total_job_posts_count := 0
    profile_completed := true }

/--
The 6-digit code built by `auth_crud.create_work_email_verification_token`:
`''.join([str(secrets.randbelow(10)) for _ in range(6)])`, with the
cryptographic draws supplied by the oracle `rand` (each draw is below 10,
modelled by `% 10`).
-/
def generate_verification_code (rand : Nat → Nat) : String :=
  String.join ((List.range 6).map (fun i => Nat.repr (rand i % 10)))

/--
`auth_crud.create_work_email_verification_token`: stores a fresh 6-digit
code and the send timestamp on the employer, returning the code.
-/
def create_work_email_verification_token (now : Int) (rand : Nat → Nat)
    (e : Employer) : Employer × String :=
  let code := generate_verification_code rand
  ({ e with
      work_email_verification_token := some code
      work_email_verification_sent_at := some now }, code)

/-- The `generic_domains` denylist in `auth_crud.verify_work_email`. -/
def generic_domains : List String :=
  ["gmail.com", "yahoo.com", "outlook.com", "hotmail.com"]

/-- `employer.work_email.split('@')[-1]`. -/
def emailDomain (email : String) : String :=
  (email.splitOn "@").getLastD ""

/--
Website cleaning in `auth_crud.verify_work_email`:
`website.replace('https://', '').replace('http://', '').replace('www.', '')`
followed by `.split('/')[0]`.
-/
def websiteDomain (website : String) : String :=
  let website_clean :=
    ((website.replace "https://" "").replace "http://" "").replace "www." ""
  (website_clean.splitOn "/").headD ""

/-- `'.'.join(domain.split('.')[-2:])` — the base domain. -/
def baseDomain (domain : String) : String :=
  let parts := domain.splitOn "."
  String.intercalate "." (parts.drop (parts.length - 2))

/--
The tier / trust-score upgrade block of `auth_crud.verify_work_email`,
executed only when the tier is still `"UNVERIFIED"`: generic email domains
score 40, a base-domain match with the company website scores 60, a
mismatch scores 45, and a missing (or empty) website scores 40.
-/
def otp_tier_upgrade (e : Employer) : Employer :=
  if e.verification_tier = "UNVERIFIED" then
    let email_domain := emailDomain e.work_email
    match e.company_website with
    | some website =>
      if website = "" then
        { e with verification_tier := "EMAIL_VERIFIED", trust_score := 40 }
      else
        let website_domain := websiteDomain website
        let email_base := baseDomain email_domain
        let website_base := baseDomain website_domain
        if email_domain ∈ generic_domains then
          { e with verification_tier := "EMAIL_VERIFIED", trust_score := 40 }
        else if email_base = website_base then
          { e with verification_tier := "EMAIL_VERIFIED", trust_score := 60 }
        else
          { e with verification_tier := "EMAIL_VERIFIED", trust_score := 45 }
    | none =>
      { e with verification_tier := "EMAIL_VERIFIED", trust_score := 40 }
  else
    e

/-- The `ValueError`s raised by `auth_crud.verify_work_email`. -/
inductive VerifyWorkEmailError
  | alreadyVerified
  | noCode
  | codeExpired
  | invalidCode
  deriving DecidableEq, Repr

/--
`auth_crud.verify_work_email` for a located employer: checks (in source
order) that the work email is not already verified, that a pending code
exists, that the code is not older than 15 minutes, and that the submitted
code matches; on success marks the email verified, clears the pending code
and runs the tier / trust-score upgrade block.
-/
def verify_work_email (now : Int) (code : String) (e : Employer) :
    Except VerifyWorkEmailError Employer :=
  if e.work_email_verified then
    .error .alreadyVerified
  else
    match e.work_email_verification_token with
    | none => .error .noCode
    | some stored =>
      let expired :=
        match e.work_email_verification_sent_at with
        | some sent_at => decide (now > sent_at + 900000)
        | none => false
      if expired then
        .error .codeExpired
      else if stored ≠ code then
        .error .invalidCode
      else
        .ok (otp_tier_upgrade
          { e with
              work_email_verified := true
              work_email_verified_at := some now
              work_email_verification_token := none })

/-- The outcomes of `auth_crud.resend_work_email_verification`. -/
inductive ResendOutcome
  | alreadyVerified
  | rateLimited (seconds_remaining : Int)
  | issued (code : String)
  deriving DecidableEq, Repr

/--
`auth_crud.resend_work_email_verification` for a located employer, paired
with the resulting employer state (a raised error leaves the state
untouched).  The rate limiter refuses a resend while less than 120 seconds
have elapsed since `work_email_verification_sent_at`, reporting
`120 - int(elapsed_seconds)` as the wait; truncating division (`Int.tdiv`)
matches Python's `int()` on the float of seconds.
-/
def resend_work_email_verification (now : Int) (rand : Nat → Nat)
    (e : Employer) : ResendOutcome × Employer :=
  if e.work_email_verified then
    (.alreadyVerified, e)
  else
    let issue := fun () =>
      let (e', code) := create_work_email_verification_token now rand e
      (ResendOutcome.issued code, e')
    match e.work_email_verification_sent_at with
    | some sent_at =>
      let time_since_last := now - sent_at
      if time_since_last < 120000 then
        (.rateLimited (120 - time_since_last.tdiv 1000), e)
      else
        issue ()
    | none => issue ()

/--
The form fields and file uploads of
`employer_routes.submit_verification_documents`; each `Bool` records
whether the corresponding optional file was supplied.
-/
structure DocSubmission where
  rjsc_registration_number : Option String
  trade_license_number : Option String
  tin_number : Option String
  linkedin_company_url : Option String
  additional_notes : Option String
  incorporation_cert : Bool
  trade_license : Bool
  tin_certificate : Bool
  deriving DecidableEq, Repr

/-- The `HTTPException`s of `employer_routes.submit_verification_documents`. -/
inductive SubmitDocsError
  | registrationIncomplete
  | alreadyFullyVerified
  | incompleteDocumentSet
  deriving DecidableEq, Repr

/--
`employer_routes.submit_verification_documents` for a located employer:
requires a completed profile, a tier other than `"FULLY_VERIFIED"`, and at
least one complete document set (number + file); on success sets the tier
to `"DOCUMENT_VERIFIED"`, rebuilds `verification_notes`, and raises the
trust score by 15 capped at 100.
-/
def submit_verification_documents (now : Int) (sub : DocSubmission)
    (e : Employer) : Except SubmitDocsError Employer :=
  if !e.profile_completed then
    .error .registrationIncomplete
  else if e.verification_tier = "FULLY_VERIFIED" then
    .error .alreadyFullyVerified
  else
    let has_valid_submission :=
      (strTruthy sub.rjsc_registration_number && sub.incorporation_cert) ||
      (strTruthy sub.trade_license_number && sub.trade_license) ||
      (strTruthy sub.tin_number && sub.tin_certificate)
    if !has_valid_submission then
      .error .incompleteDocumentSet
    else
      let notes_parts := ["Submitted: " ++ toString now]
        ++ (match sub.linkedin_company_url with
            | some url => ["LinkedIn: " ++ url]
            | none => [])
        ++ (match sub.additional_notes with
            | some notes => ["Notes: " ++ notes]
            | none => [])
        ++ (match e.verification_notes with
            | some prev =>
              if prev = "" then [] else ["\n--- Previous Notes ---\n" ++ prev]
            | none => [])
      .ok { e with
              verification_tier := "DOCUMENT_VERIFIED"
              verification_notes := some (String.intercalate "\n" notes_parts)
              trust_score := min (e.trust_score + 15) 100 }

/-- The tier-gate `HTTPException`s of the admin decision routes. -/
inductive AdminDecisionError
  | invalidTier (current : String)
  deriving DecidableEq, Repr

/--
`admin_routes.approve_verification` for a located employer: legal only from
tier `"DOCUMENT_VERIFIED"` or `"REJECTED"`; on success sets the tier to
`"FULLY_VERIFIED"`, records the approving admin and timestamp, sets the
trust score to 85 and appends an audit note.
-/
def approve_verification (now : Int) (adminId : Nat) (adminEmail : String)
    (admin_notes : String) (e : Employer) : Except AdminDecisionError Employer :=
  if e.verification_tier ≠ "DOCUMENT_VERIFIED" ∧ e.verification_tier ≠ "REJECTED" then
    .error (.invalidTier e.verification_tier)
  else
    let admin_note := "\n\n✅ APPROVED by " ++ adminEmail ++ "\nDate: "
      ++ toString now ++ "\nReason: " ++ admin_notes
    .ok { e with
            verification_tier := "FULLY_VERIFIED"
            verified_at := some now
            verified_by := some adminId
            trust_score := 85
            verification_notes :=
              some ((e.verification_notes.getD "") ++ admin_note) }

/--
`admin_routes.reject_verification` for a located employer: legal only from
tier `"DOCUMENT_VERIFIED"`; on success sets the tier to `"REJECTED"`,
records the admin and appends an audit note.
-/
def reject_verification (now : Int) (adminId : Nat) (adminEmail : String)
    (admin_notes : String) (e : Employer) : Except AdminDecisionError Employer :=
  if e.verification_tier ≠ "DOCUMENT_VERIFIED" then
    .error (.invalidTier e.verification_tier)
  else
    let admin_note := "\n\n❌ REJECTED by " ++ adminEmail ++ "\nDate: "
      ++ toString now ++ "\nReason: " ++ admin_notes
    .ok { e with
            verification_tier := "REJECTED"
            verified_by := some adminId
            verification_notes :=
              some ((e.verification_notes.getD "") ++ admin_note) }

/--
`admin_routes.suspend_employer` for a located employer: unconditionally
sets the tier to `"SUSPENDED"`, zeroes the trust score and appends an
audit note.
-/
def suspend_employer (now : Int) (adminEmail : String) (reason : String)
    (e : Employer) : Employer :=
  let admin_note := "\n\n🚫 SUSPENDED by " ++ adminEmail ++ "\nDate: "
    ++ toString now ++ "\nReason: " ++ reason
  { e with
      verification_tier := "SUSPENDED"
      trust_score := 0
      verification_notes :=
        some ((e.verification_notes.getD "") ++ admin_note) }

/-- The job-creation payload fields the engine inspects (`JobCreate` schema). -/
structure JobCreate where
  salary_min : Option Int
  salary_max : Option Int
  application_deadline : Int
  deriving DecidableEq, Repr

/-- The `HTTPException`s of `employer_routes.create_job`. -/
inductive EmpRoutesCreateJobError
  | notEmployerRole
  | workEmailNotVerified
  | invalidSalaryRange
  deriving DecidableEq, Repr

/--
`employer_routes.create_job` (the `/employer/jobs` handler) for a located
employer: checks the role, that the work email is verified and that the
salary range is consistent, then creates the job.  It neither consults
`can_post_job` nor touches the employer's counters; the employer in the
result is returned unchanged, exactly as in the handler.
-/
def EmployerRoutes.create_job (role : UserRole) (e : Employer)
    (data : JobCreate) (jobId : Nat) :
    Except EmpRoutesCreateJobError (Employer × Job) :=
  if role ≠ UserRole.EMPLOYER then
    .error .notEmployerRole
  else if !e.work_email_verified then
    .error .workEmailNotVerified
  else if intTruthy data.salary_min && intTruthy data.salary_max
      && decide (data.salary_max.getD 0 < data.salary_min.getD 0) then
    .error .invalidSalaryRange
  else
    .ok (e,
      { id := jobId
        employer_id := e.id
        is_active := true
        is_closed := false
        application_deadline := data.application_deadline
        closed_at := none
        closure_reason := none })

/-- The `HTTPException`s of `job_routes.create_job`. -/
inductive JobRoutesCreateJobError
  | notEmployerRole
  | quotaDenied
  deriving DecidableEq, Repr

/--
`job_routes.create_job` (the `/jobs/` handler) for a located employer:
checks the role, consults `can_post_job`, creates the job via
`job_crud.create_job` and increments both job counters.
-/
def JobRoutes.create_job (role : UserRole) (e : Employer)
    (data : JobCreate) (jobId : Nat) :
    Except JobRoutesCreateJobError (Employer × Job) :=
  if role ≠ UserRole.EMPLOYER then
    .error .notEmployerRole
  else
    let can_post := (e.can_post_job).1
    if !can_post then
      .error .quotaDenied
    else
      .ok ({ e with
              active_job_posts_count := e.active_job_posts_count + 1
              total_job_posts_count := e.total_job_posts_count + 1 },
        { id := jobId
          employer_id := e.id
          is_active := true
          is_closed := false
          application_deadline := data.application_deadline
          closed_at := none
          closure_reason := none })

/-- The `HTTPException`s of the job closing / deleting handlers. -/
inductive CloseJobError
  | notEmployerRole
  | jobNotFound
  | alreadyClosed
  deriving DecidableEq, Repr

/--
`employer_routes.close_job` (the `/employer/jobs/{job_id}/close` handler):
checks the role and that the job belongs to the employer, then sets
`is_active = False` and `is_closed = True`.  It does not touch the
employer's counters and does not check whether the job was already closed;
the employer in the result is returned unchanged, exactly as in the handler.
-/
def EmployerRoutes.close_job (role : UserRole) (e : Employer) (j : Job) :
    Except CloseJobError (Employer × Job) :=
  if role ≠ UserRole.EMPLOYER then
    .error .notEmployerRole
  else if j.employer_id ≠ e.id then
    .error .jobNotFound
  else
    .ok (e, { j with is_active := false, is_closed := true })

/--
`job_routes.close_job_manually` (the `/jobs/{job_id}/close` handler):
refuses an already-closed job, otherwise closes it with a closure reason
and decrements `active_job_posts_count` with a floor at 0.
-/
def JobRoutes.close_job_manually (now : Int) (reason : String)
    (e : Employer) (j : Job) : Except CloseJobError (Employer × Job) :=
  if j.employer_id ≠ e.id then
    .error .jobNotFound
  else if j.is_closed then
    .error .alreadyClosed
  else
    .ok ({ e with active_job_posts_count := max 0 (e.active_job_posts_count - 1) },
      { j with
          is_active := false
          is_closed := true
          closed_at := some now
          closure_reason := some ("manual_" ++ reason) })

/--
`job_routes.delete_job` (the `DELETE /jobs/{job_id}` handler):
`job_crud.delete_job` marks the job inactive, then the handler decrements
`active_job_posts_count` with a floor at 0.
-/
def JobRoutes.delete_job (e : Employer) (j : Job) :
    Except CloseJobError (Employer × Job) :=
  if j.employer_id ≠ e.id then
    .error .jobNotFound
  else
    .ok ({ e with active_job_posts_count := max 0 (e.active_job_posts_count - 1) },
      { j with is_active := false })

/-- The persistent state the engine mutates: all employers and all jobs. -/
structure World where
  employers : List Employer
  jobs : List Job
  deriving DecidableEq, Repr

/-- `db.query(Employer).filter(Employer.id == eid).first()`. -/
def World.findEmployer (w : World) (eid : Nat) : Option Employer :=
  w.employers.find? (fun e => e.id = eid)

/-- `db.query(Job).filter(Job.id == jid).first()`. -/
def World.findJob (w : World) (jid : Nat) : Option Job :=
  w.jobs.find? (fun j => j.id = jid)

/--
Mutating the first employer row with the given id in place (the ORM object
returned by `.first()`); rows after the first match are untouched.
-/
def updateFirstEmployer (eid : Nat) (f : Employer → Employer) :
    List Employer → List Employer
  | [] => []
  | e :: es =>
    if e.id = eid then f e :: es else e :: updateFirstEmployer eid f es

/-- Writing back a mutated job row: every row with the job's id is updated. -/
def writeJob (j' : Job) (jobs : List Job) : List Job :=
  jobs.map (fun k => if k.id = j'.id then j' else k)

/--
The filter of `tasks/job_closure.close_expired_jobs`:
`is_active == True, is_closed == False, application_deadline <= now`.
-/
def expiredPred (now : Int) (j : Job) : Bool :=
  j.is_active && !j.is_closed && decide (j.application_deadline ≤ now)

/--
The guarded decrement of the sweep loop:
`if employer and employer.active_job_posts_count > 0: ... -= 1`.
-/
def sweepDecrement (emp : Employer) : Employer :=
  if emp.active_job_posts_count > 0 then
    { emp with active_job_posts_count := emp.active_job_posts_count - 1 }
  else emp

/--
One iteration of the loop body of `tasks/job_closure.close_expired_jobs`
for the snapshot row `j`: close the job and apply the guarded decrement to
the owning employer.
-/
def closeExpiredJob (now : Int) (w : World) (j : Job) : World :=
  { employers :=
      updateFirstEmployer j.employer_id sweepDecrement w.employers
    jobs :=
      writeJob
        { j with
            is_active := false
            is_closed := true
            closed_at := some now
            closure_reason := some "deadline_passed" }
        w.jobs }

/--
`tasks/job_closure.close_expired_jobs`: snapshot all expired active open
jobs, then close each and decrement its owner's active counter (guarded at
0), committing the batch.
-/
def close_expired_jobs (now : Int) (w : World) : World :=
  (w.jobs.filter (expiredPred now)).foldl (closeExpiredJob now) w

/--
One engine operation, with all request data (timestamps, random oracles,
payloads) carried as parameters.  Operations that locate an employer or a
job do so by id; a raised error leaves the world unchanged, as the handler
raises before committing.
-/
inductive EngineOp
  | register (id : Nat) (work_email : String) (website : Option String)
  | issueOtp (now : Int) (rand : Nat → Nat) (eid : Nat)
  | confirmOtp (now : Int) (eid : Nat) (code : String)
  | resendOtp (now : Int) (rand : Nat → Nat) (eid : Nat)
  | submitDocs (now : Int) (eid : Nat) (sub : DocSubmission)
  | adminApprove (now : Int) (eid : Nat) (adminId : Nat)
      (adminEmail : String) (notes : String)
  | adminReject (now : Int) (eid : Nat) (adminId : Nat)
      (adminEmail : String) (notes : String)
  | adminSuspend (now : Int) (eid : Nat) (adminEmail : String) (reason : String)
  | createJobEmp (role : UserRole) (eid : Nat) (data : JobCreate) (jid : Nat)
  | createJobApi (role : UserRole) (eid : Nat) (data : JobCreate) (jid : Nat)
  | closeJobEmp (role : UserRole) (eid : Nat) (jid : Nat)
  | closeJobManual (now : Int) (eid : Nat) (jid : Nat) (reason : String)
  | deleteJobApi (eid : Nat) (jid : Nat)
  | sweep (now : Int)

/-- Lift a fallible employer-level operation to the world. -/
def World.onEmployer (w : World) (eid : Nat)
    (f : Employer → Except ε Employer) : World :=
  match w.findEmployer eid with
  | none => w
  | some e =>
    match f e with
    | .error _ => w
    | .ok e' =>
      { w with employers := updateFirstEmployer eid (fun _ => e') w.employers }

/-- Lift a fallible employer-and-job-level operation to the world. -/
def World.onEmployerJob (w : World) (eid : Nat) (jid : Nat)
    (f : Employer → Job → Except ε (Employer × Job)) : World :=
  match w.findEmployer eid, w.findJob jid with
  | some e, some j =>
    match f e j with
    | .error _ => w
    | .ok (e', j') =>
      { employers := updateFirstEmployer eid (fun _ => e') w.employers
        jobs := writeJob j' w.jobs }
  | _, _ => w

/-- Apply one engine operation to the world. -/
def World.step (w : World) : EngineOp → World
  | .register id work_email website =>
    match w.findEmployer id with
    | some _ =>
      { w with
          employers :=
            updateFirstEmployer id
              (fun e =>
                { e with
                    work_email := work_email
                    company_website := website
                    profile_completed := true })
              w.employers }
    | none =>
      { w with employers := w.employers ++ [create_employer id work_email website] }
  | .issueOtp now rand eid =>
    w.onEmployer eid
      (fun e => Except.ok (ε := Unit) (create_work_email_verification_token now rand e).1)
  | .confirmOtp now eid code =>
    w.onEmployer eid (verify_work_email now code)
  | .resendOtp now rand eid =>
    w.onEmployer eid
      (fun e => Except.ok (ε := Unit) (resend_work_email_verification now rand e).2)
  | .submitDocs now eid sub =>
    w.onEmployer eid (submit_verification_documents now sub)
  | .adminApprove now eid adminId adminEmail notes =>
    w.onEmployer eid (approve_verification now adminId adminEmail notes)
  | .adminReject now eid adminId adminEmail notes =>
    w.onEmployer eid (reject_verification now adminId adminEmail notes)
  | .adminSuspend now eid adminEmail reason =>
    w.onEmployer eid
      (fun e => Except.ok (ε := Unit) (suspend_employer now adminEmail reason e))
  | .createJobEmp role eid data jid =>
    match w.findEmployer eid with
    | none => w
    | some e =>
      match EmployerRoutes.create_job role e data jid with
      | .error _ => w
      | .ok (e', j) =>
        { employers := updateFirstEmployer eid (fun _ => e') w.employers
          jobs := w.jobs ++ [j] }
  | .createJobApi role eid data jid =>
    match w.findEmployer eid with
    | none => w
    | some e =>
      match JobRoutes.create_job role e data jid with
      | .error _ => w
      | .ok (e', j) =>
        { employers := updateFirstEmployer eid (fun _ => e') w.employers
          jobs := w.jobs ++ [j] }
  | .closeJobEmp role eid jid =>
    w.onEmployerJob eid jid (EmployerRoutes.close_job role)
  | .closeJobManual now eid jid reason =>
    w.onEmployerJob eid jid (JobRoutes.close_job_manually now reason)
  | .deleteJobApi eid jid =>
    w.onEmployerJob eid jid JobRoutes.delete_job
  | .sweep now =>
    close_expired_jobs now w

/-- Per-employer invariant: trust score in `[0, 100]`, counter nonnegative. -/
def EmployerInv (e : Employer) : Prop :=
  0 ≤ e.trust_score ∧ e.trust_score ≤ 100 ∧ 0 ≤ e.active_job_posts_count

instance (e : Employer) : Decidable (EmployerInv e) := by
  unfold EmployerInv; infer_instance

/-- World invariant: every employer row satisfies `EmployerInv`. -/
def WorldInv (w : World) : Prop :=
  ∀ e ∈ w.employers, EmployerInv e

instance (w : World) : Decidable (WorldInv w) := by
  unfold WorldInv; infer_instance

/-! Concrete sample states used to exercise the definitions. -/

/-- A freshly registered employer with a matching company website. -/
def baseEmployer : Employer :=
  create_employer 1 "hr@acme.com" (some "https://acme.com")

/-- FREE / EMAIL_VERIFIED employer whose quota (2) is exhausted. -/
def freeQuotaFullEmployer : Employer :=
  { baseEmployer with
      verification_tier := "EMAIL_VERIFIED"
      work_email_verified := true
      active_job_posts_count := 2
      total_job_posts_count := 2 }

/-- BUSINESS / FULLY_VERIFIED employer with a huge active counter. -/
def businessUnlimitedEmployer : Employer :=
  { baseEmployer with
      verification_tier := "FULLY_VERIFIED"
      subscription_tier := SubscriptionTier.BUSINESS
      active_job_posts_count := 1000000
      total_job_posts_count := 1000000 }

/-- A job payload with no salary bounds. -/
def sampleJobData : JobCreate :=
  { salary_min := none, salary_max := none, application_deadline := 999999 }

/-- The job `employer_routes.create_job` builds for `freeQuotaFullEmployer`. -/
def sampleCreatedJob : Job :=
  { id := 7
    employer_id := 1
    is_active := true
    is_closed := false
    application_deadline := 999999
    closed_at := none
    closure_reason := none }

/-- EMAIL_VERIFIED employer with one active job counted. -/
def oneActiveJobEmployer : Employer :=
  { baseEmployer with
      verification_tier := "EMAIL_VERIFIED"
      work_email_verified := true
      active_job_posts_count := 1
      total_job_posts_count := 1 }

/-- An open job owned by employer 1. -/
def openJob : Job :=
  { id := 3
    employer_id := 1
    is_active := true
    is_closed := false
    application_deadline := 999999
    closed_at := none
    closure_reason := none }

/-- Employer 1 with a zero active counter despite owning an open job. -/
def zeroCountEmployer : Employer :=
  { baseEmployer with
      verification_tier := "EMAIL_VERIFIED"
      work_email_verified := true }

/-- A job past its deadline (deadline 5) that is still active and open. -/
def expiredJob : Job :=
  { id := 1
    employer_id := 1
    is_active := true
    is_closed := false
    application_deadline := 5
    closed_at := none
    closure_reason := none }

/-- A world in which the sweep finds an expired job but a zero counter. -/
def zeroCountWorld : World :=
  { employers := [zeroCountEmployer], jobs := [expiredJob] }

/-- A world in which the counter matches the single expired job. -/
def oneCountWorld : World :=
  { employers := [oneActiveJobEmployer], jobs := [expiredJob] }

/-- Employer at tier REJECTED (admin decision sample). -/
def rejectedEmployer : Employer :=
  { baseEmployer with verification_tier := "REJECTED" }

/-- Employer at tier EMAIL_VERIFIED (admin decision sample). -/
def emailVerifiedEmployer : Employer :=
  { baseEmployer with verification_tier := "EMAIL_VERIFIED" }

/-- UNVERIFIED employer holding the pending code `"123456"` sent at t=1000. -/
def pendingOtpEmployer : Employer :=
  { baseEmployer with
      work_email_verification_token := some "123456"
      work_email_verification_sent_at := some 1000 }

/-- The same pending-code state but at tier REJECTED. -/
def pendingOtpRejectedEmployer : Employer :=
  { pendingOtpEmployer with verification_tier := "REJECTED" }

/-- A pending-code employer whose work email is a generic provider. -/
def pendingOtpGmailEmployer : Employer :=
  { pendingOtpEmployer with work_email := "hr@gmail.com" }

/-- A pending-code employer whose website differs from the email domain. -/
def pendingOtpMismatchEmployer : Employer :=
  { pendingOtpEmployer with company_website := some "https://other.com" }

/-- A pending-code employer with no company website. -/
def pendingOtpNoSiteEmployer : Employer :=
  { pendingOtpEmployer with company_website := none }

/-- A constant digit oracle (every draw is 4). -/
def constRand : Nat → Nat := fun _ => 4

/-- `oneActiveJobEmployer` after the manual-close decrement. -/
def decrementedEmployer : Employer :=
  { oneActiveJobEmployer with active_job_posts_count := 0 }

/-- `openJob` after `job_routes.close_job_manually` at t=50, reason "filled". -/
def manuallyClosedJob : Job :=
  { openJob with
      is_active := false
      is_closed := true
      closed_at := some 50
      closure_reason := some "manual_filled" }

/-! ## Theorems -/

/--
C3: `can_post_job` fails when the subscription status is not ACTIVE, fails
at the tiers UNVERIFIED, SUSPENDED and REJECTED, and otherwise consults the
quota matrix: a limit of −1 (as for BUSINESS × FULLY_VERIFIED) always
allows regardless of the counter, and a non-negative limit (2 for
FREE × EMAIL_VERIFIED) allows exactly when
`active_job_posts_count < limit`.
-/
theorem canPostJob_spec (e : Employer) :
    (e.subscription_status ≠ SubscriptionStatus.ACTIVE → (e.can_post_job).1 = false)
    ∧ ((e.verification_tier = "UNVERIFIED" ∨ e.verification_tier = "SUSPENDED"
        ∨ e.verification_tier = "REJECTED") → (e.can_post_job).1 = false)
    ∧ (e.subscription_status = SubscriptionStatus.ACTIVE →
        e.verification_tier ≠ "UNVERIFIED" →
        e.verification_tier ≠ "SUSPENDED" →
        e.verification_tier ≠ "REJECTED" →
        ((e.get_job_posting_limit = -1 → (e.can_post_job).1 = true)
          ∧ (0 ≤ e.get_job_posting_limit →
              ((e.can_post_job).1 = true ↔
                e.active_job_posts_count < e.get_job_posting_limit))))
    ∧ JOB_POSTING_LIMITS "FREE" "EMAIL_VERIFIED" = 2
    ∧ JOB_POSTING_LIMITS "BUSINESS" "FULLY_VERIFIED" = -1 := by
  refine ⟨?_, ?_, ?_, by decide, by decide⟩
  · intro h
    unfold Employer.can_post_job
    rw [if_pos h]
  · intro h
    unfold Employer.can_post_job
    split_ifs with h1 h2 h3 h4 <;> simp_all
  · intro hs h1 h2 h3
    unfold Employer.can_post_job
    rw [if_neg (by simp [hs]), if_neg h1, if_neg h2, if_neg h3]
    dsimp only
    split_ifs with h4 h5
    · exact ⟨fun _ => rfl, fun hl => absurd hl (by omega)⟩
    · exact ⟨fun hl => absurd hl h4, fun _ => by simp [h5]⟩
    · exact ⟨fun hl => absurd hl h4, fun _ => by simp [h5]⟩

/--
Witness for C3 at the FREE × EMAIL_VERIFIED employer with counter 2:
the allow decision is exactly `counter < limit`.
-/
theorem canPostJob_spec_witness :
    (freeQuotaFullEmployer.can_post_job).1 = true ↔
      freeQuotaFullEmployer.active_job_posts_count
        < freeQuotaFullEmployer.get_job_posting_limit :=
  ((canPostJob_spec freeQuotaFullEmployer).2.2.1 (by decide) (by decide)
    (by decide) (by decide)).2 (by decide)

/--
C1 (amended): job creation through the jobs API route
(`job_routes.create_job`) consults `can_post_job` before creating and, on
success, increments both `active_job_posts_count` and
`total_job_posts_count` by exactly 1; job creation through the employer
route (`employer_routes.create_job`) checks only the work-email flag,
never consults `can_post_job`, and returns the employer — and hence both
counters — unchanged.
-/
theorem createJob_quota_spec (role : UserRole) (e : Employer)
    (d : JobCreate) (jid : Nat) :
    (role = UserRole.EMPLOYER → (e.can_post_job).1 = false →
      JobRoutes.create_job role e d jid = .error .quotaDenied)
    ∧ (∀ e' j, JobRoutes.create_job role e d jid = .ok (e', j) →
        (e.can_post_job).1 = true
        ∧ e'.active_job_posts_count = e.active_job_posts_count + 1
        ∧ e'.total_job_posts_count = e.total_job_posts_count + 1)
    ∧ (∀ e' j, EmployerRoutes.create_job role e d jid = .ok (e', j) → e' = e) := by
  refine ⟨?_, ?_, ?_⟩
  · intro hrole hq
    unfold JobRoutes.create_job
    rw [if_neg (by simp [hrole])]
    dsimp only
    rw [if_pos (by simp [hq])]
  · intro e' j h
    unfold JobRoutes.create_job at h
    dsimp only at h
    split_ifs at h with h1 h2
    simp only [Except.ok.injEq, Prod.mk.injEq] at h
    obtain ⟨he', _⟩ := h
    subst he'
    simp only [Bool.not_eq_true] at h2
    refine ⟨by simpa using h2, rfl, rfl⟩
  · intro e' j h
    unfold EmployerRoutes.create_job at h
    split_ifs at h with h1 h2 h3
    simp only [Except.ok.injEq, Prod.mk.injEq] at h
    exact h.1.symm

/--
C1 counterexample: the employer route creates a job for the FREE ×
EMAIL_VERIFIED employer whose quota is exhausted (`can_post_job` denies)
and leaves both counters at 2.
-/
theorem createJob_quota_cex :
    (freeQuotaFullEmployer.can_post_job).1 = false
    ∧ EmployerRoutes.create_job UserRole.EMPLOYER freeQuotaFullEmployer
        sampleJobData 7 = .ok (freeQuotaFullEmployer, sampleCreatedJob)
    ∧ freeQuotaFullEmployer.active_job_posts_count = 2
    ∧ freeQuotaFullEmployer.total_job_posts_count = 2 := by
  refine ⟨by decide, rfl, by decide, by decide⟩

/-- Witness for C1: at the quota-exhausted employer the API route denies. -/
theorem createJob_quota_witness :
    JobRoutes.create_job UserRole.EMPLOYER freeQuotaFullEmployer
      sampleJobData 7 = .error .quotaDenied :=
  (createJob_quota_spec UserRole.EMPLOYER freeQuotaFullEmployer
    sampleJobData 7).1 rfl (by decide)

/--
C2 (amended): the employer-route close handler (`employer_routes.close_job`)
marks the job closed but returns the employer — and hence
`active_job_posts_count` — unchanged; the jobs-API manual close handler
(`job_routes.close_job_manually`) refuses an already-closed job without
decrementing, and on an open job decrements `active_job_posts_count` by
exactly 1 whenever it is positive, flooring at 0 so the counter never goes
below 0.
-/
theorem closeJob_counter_spec (now : Int) (reason : String) (role : UserRole)
    (e : Employer) (j : Job) :
    (∀ e' j', EmployerRoutes.close_job role e j = .ok (e', j') →
        e' = e ∧ j'.is_closed = true)
    ∧ (j.employer_id = e.id → j.is_closed = true →
        JobRoutes.close_job_manually now reason e j = .error .alreadyClosed)
    ∧ (∀ e' j', JobRoutes.close_job_manually now reason e j = .ok (e', j') →
        j.is_closed = false
        ∧ j'.is_closed = true
        ∧ e'.active_job_posts_count = max 0 (e.active_job_posts_count - 1)
        ∧ 0 ≤ e'.active_job_posts_count
        ∧ (0 < e.active_job_posts_count →
            e'.active_job_posts_count = e.active_job_posts_count - 1)) := by
  refine ⟨?_, ?_, ?_⟩
  · intro e' j' h
    unfold EmployerRoutes.close_job at h
    split_ifs at h with h1 h2
    simp only [Except.ok.injEq, Prod.mk.injEq] at h
    obtain ⟨he, hj⟩ := h
    subst he; subst hj
    exact ⟨rfl, rfl⟩
  · intro hown hclosed
    unfold JobRoutes.close_job_manually
    rw [if_neg (by simp [hown]), if_pos hclosed]
  · intro e' j' h
    unfold JobRoutes.close_job_manually at h
    split_ifs at h with h1 h2
    simp only [Except.ok.injEq, Prod.mk.injEq] at h
    obtain ⟨he, hj⟩ := h
    subst he; subst hj
    refine ⟨by simpa using h2, rfl, rfl, le_max_left 0 _, fun hpos => ?_⟩
    simp only
    omega

/--
C2 counterexample: closing the open job of the employer whose counter is 1
through the employer route succeeds yet returns the employer with the
counter still at 1 — the operation does not decrement.
-/
theorem closeJob_counter_cex :
    openJob.is_closed = false
    ∧ openJob.employer_id = oneActiveJobEmployer.id
    ∧ EmployerRoutes.close_job UserRole.EMPLOYER oneActiveJobEmployer openJob
        = .ok (oneActiveJobEmployer,
            { openJob with is_active := false, is_closed := true })
    ∧ oneActiveJobEmployer.active_job_posts_count = 1 :=
  ⟨rfl, rfl, rfl, rfl⟩

/-- Witness for C2: the manual close on the counter-1 employer ends at 0. -/
theorem closeJob_counter_witness :
    openJob.is_closed = false
    ∧ manuallyClosedJob.is_closed = true
    ∧ decrementedEmployer.active_job_posts_count
        = max 0 (oneActiveJobEmployer.active_job_posts_count - 1)
    ∧ 0 ≤ decrementedEmployer.active_job_posts_count
    ∧ (0 < oneActiveJobEmployer.active_job_posts_count →
        decrementedEmployer.active_job_posts_count
          = oneActiveJobEmployer.active_job_posts_count - 1) :=
  (closeJob_counter_spec 50 "filled" UserRole.EMPLOYER oneActiveJobEmployer
    openJob).2.2 decrementedEmployer manuallyClosedJob rfl

/--
C9 (amended): the admin decision routes gate on the current tier before
mutating: `approve_verification` succeeds exactly from DOCUMENT_VERIFIED
or REJECTED, `reject_verification` succeeds exactly from
DOCUMENT_VERIFIED, and an approve attempted on an employer currently at
EMAIL_VERIFIED fails with the invalid-tier error and leaves the world
unchanged.
-/
theorem adminDecide_transition_spec (now : Int) (adminId : Nat)
    (adminEmail notes : String) (e : Employer) :
    ((∃ e', approve_verification now adminId adminEmail notes e = .ok e') ↔
      (e.verification_tier = "DOCUMENT_VERIFIED"
        ∨ e.verification_tier = "REJECTED"))
    ∧ ((∃ e', reject_verification now adminId adminEmail notes e = .ok e') ↔
      e.verification_tier = "DOCUMENT_VERIFIED")
    ∧ (e.verification_tier = "EMAIL_VERIFIED" →
        approve_verification now adminId adminEmail notes e
          = .error (.invalidTier "EMAIL_VERIFIED")
        ∧ ∀ w : World, w.findEmployer e.id = some e →
            w.step (.adminApprove now e.id adminId adminEmail notes) = w) := by
  refine ⟨?_, ?_, ?_⟩
  · unfold approve_verification
    split_ifs with h
    · simp only [reduceCtorEq, exists_false, false_iff]
      intro hc
      rcases hc with hc | hc <;> simp [hc] at h
    · rw [not_and_or, not_not, not_not] at h
      simp [h]
  · unfold reject_verification
    split_ifs with h
    · simp [h]
    · rw [not_not] at h
      simp [h]
  · intro htier
    have happ : approve_verification now adminId adminEmail notes e
        = .error (.invalidTier "EMAIL_VERIFIED") := by
      unfold approve_verification
      rw [if_pos (by simp [htier]), htier]
    refine ⟨happ, fun w hw => ?_⟩
    simp only [World.step, World.onEmployer, hw, happ]

/--
C9 counterexample: approve on an employer currently at REJECTED — a
transition absent from the spec table — succeeds and sets the tier to
FULLY_VERIFIED, so approve is not legal only from DOCUMENT_VERIFIED.
-/
theorem adminDecide_transition_cex :
    rejectedEmployer.verification_tier = "REJECTED"
    ∧ (approve_verification 1000 9 "admin@jobscape.com" "ok"
        rejectedEmployer).toOption.map (fun e' => e'.verification_tier)
      = some "FULLY_VERIFIED" :=
  ⟨rfl, rfl⟩

/-- Witness for C9: approve at EMAIL_VERIFIED errors and the world stands. -/
theorem adminDecide_transition_witness :
    approve_verification 1000 9 "admin@jobscape.com" "ok" emailVerifiedEmployer
      = .error (.invalidTier "EMAIL_VERIFIED")
    ∧ World.step { employers := [emailVerifiedEmployer], jobs := [] }
        (.adminApprove 1000 emailVerifiedEmployer.id 9 "admin@jobscape.com" "ok")
      = { employers := [emailVerifiedEmployer], jobs := [] } :=
  ((adminDecide_transition_spec 1000 9 "admin@jobscape.com" "ok"
      emailVerifiedEmployer).2.2 rfl).imp id
    (fun h => h { employers := [emailVerifiedEmployer], jobs := [] } rfl)

/--
Shape of a successful `verify_work_email`: when the email is not yet
verified, the stored code matches and none of the expiry conditions
trigger, the result is the employer with the verified flag set, the
timestamp recorded and the token cleared, passed through the tier-upgrade
block.
-/
theorem verify_ok_shape (now : Int) (e : Employer) (code : String)
    (hv : e.work_email_verified = false)
    (ht : e.work_email_verification_token = some code)
    (hs : ∀ t, e.work_email_verification_sent_at = some t →
      ¬(now > t + 900000)) :
    verify_work_email now code e =
      .ok (otp_tier_upgrade
        { e with
            work_email_verified := true
            work_email_verified_at := some now
            work_email_verification_token := none }) := by
  unfold verify_work_email
  rw [if_neg (by simp [hv]), ht]
  cases hsent : e.work_email_verification_sent_at with
  | none => simp
  | some t =>
    have := hs t hsent
    simp [this]

/-- The tier-upgrade block is the identity away from UNVERIFIED. -/
theorem otp_tier_upgrade_of_ne (e : Employer)
    (h : e.verification_tier ≠ "UNVERIFIED") : otp_tier_upgrade e = e := by
  unfold otp_tier_upgrade
  rw [if_neg h]

/--
The tier-upgrade block at UNVERIFIED: the tier becomes EMAIL_VERIFIED in
every branch, and the trust score is 40 without a (truthy) website, 40 for
a generic email domain, 60 on a base-domain match and 45 on a mismatch;
the verified flag and the token are untouched by the block.
-/
theorem otp_tier_upgrade_unverified (e : Employer)
    (h : e.verification_tier = "UNVERIFIED") :
    (otp_tier_upgrade e).verification_tier = "EMAIL_VERIFIED"
    ∧ (strTruthy e.company_website = false →
        (otp_tier_upgrade e).trust_score = 40)
    ∧ (∀ web, e.company_website = some web → web ≠ "" →
        ((emailDomain e.work_email ∈ generic_domains →
            (otp_tier_upgrade e).trust_score = 40)
         ∧ (emailDomain e.work_email ∉ generic_domains →
             baseDomain (emailDomain e.work_email)
               = baseDomain (websiteDomain web) →
             (otp_tier_upgrade e).trust_score = 60)
         ∧ (emailDomain e.work_email ∉ generic_domains →
             baseDomain (emailDomain e.work_email)
               ≠ baseDomain (websiteDomain web) →
             (otp_tier_upgrade e).trust_score = 45)))
    ∧ (otp_tier_upgrade e).work_email_verified = e.work_email_verified
    ∧ (otp_tier_upgrade e).work_email_verification_token
        = e.work_email_verification_token := by
  unfold otp_tier_upgrade
  rw [if_pos h]
  cases hw : e.company_website with
  | none =>
    dsimp only
    exact ⟨rfl, fun _ => rfl, fun web hweb => by simp at hweb, rfl, rfl⟩
  | some web =>
    dsimp only
    by_cases hempty : web = ""
    · subst hempty
      rw [if_pos rfl]
      refine ⟨rfl, fun _ => rfl, ?_, rfl, rfl⟩
      intro w hw' hne
      obtain rfl : w = "" := by simpa using hw'.symm
      exact absurd rfl hne
    · rw [if_neg hempty]
      refine ⟨?_, fun htr => ?_, ?_, ?_, ?_⟩
      · split_ifs <;> rfl
      · exfalso
        revert htr
        simp [strTruthy, hempty]
      · intro w hw' hne
        obtain rfl : w = web := by simpa using hw'.symm
        exact ⟨fun hgen => by rw [if_pos hgen],
          fun hgen hbase => by rw [if_neg hgen, if_pos hbase],
          fun hgen hbase => by rw [if_neg hgen, if_neg hbase]⟩
      · split_ifs <;> rfl
      · split_ifs <;> rfl

/--
C10: when OTP confirmation succeeds for an employer whose
`verification_tier` is not UNVERIFIED (for instance REJECTED, SUSPENDED or
DOCUMENT_VERIFIED), the work email is marked verified and the pending code
is cleared, but the tier, the trust score, and every other field are left
unchanged.
-/
theorem otpConfirm_frame (now : Int) (e : Employer) (code : String)
    (hv : e.work_email_verified = false)
    (ht : e.work_email_verification_token = some code)
    (hs : ∀ t, e.work_email_verification_sent_at = some t →
      ¬(now > t + 900000))
    (htier : e.verification_tier ≠ "UNVERIFIED") :
    verify_work_email now code e =
      .ok { e with
              work_email_verified := true
              work_email_verified_at := some now
              work_email_verification_token := none } := by
  rw [verify_ok_shape now e code hv ht hs,
    otp_tier_upgrade_of_ne
      { e with
          work_email_verified := true
          work_email_verified_at := some now
          work_email_verification_token := none } htier]

/-- Witness for C10: confirming the pending code at tier REJECTED. -/
theorem otpConfirm_frame_witness :
    verify_work_email 2000 "123456" pendingOtpRejectedEmployer =
      .ok { pendingOtpRejectedEmployer with
              work_email_verified := true
              work_email_verified_at := some 2000
              work_email_verification_token := none } :=
  otpConfirm_frame 2000 pendingOtpRejectedEmployer "123456" rfl rfl
    (fun t ht => by
      simp only [pendingOtpRejectedEmployer, pendingOtpEmployer, baseEmployer,
        create_employer, Option.some.injEq] at ht
      omega)
    (by decide)

/--
C5: OTP confirmation fails with the already-verified conflict when the
work email is verified, with the no-code error when no pending code
exists, with the expired error when `now` is more than 15 minutes past the
send time, and with the invalid-code error when the submitted code differs
from the stored one; on the successful confirmation the pending code is
cleared, the email is marked verified, the tier UNVERIFIED becomes
EMAIL_VERIFIED, and any further confirmation attempt yields the conflict
(so the transition happens exactly once).
-/
theorem otpConfirm_errors (now now2 : Int) (e : Employer)
    (code code2 : String) :
    (e.work_email_verified = true →
      verify_work_email now code e = .error .alreadyVerified)
    ∧ (e.work_email_verified = false →
        e.work_email_verification_token = none →
        verify_work_email now code e = .error .noCode)
    ∧ (∀ stored t, e.work_email_verified = false →
        e.work_email_verification_token = some stored →
        e.work_email_verification_sent_at = some t →
        now > t + 900000 →
        verify_work_email now code e = .error .codeExpired)
    ∧ (∀ stored t, e.work_email_verified = false →
        e.work_email_verification_token = some stored →
        e.work_email_verification_sent_at = some t →
        ¬(now > t + 900000) → stored ≠ code →
        verify_work_email now code e = .error .invalidCode)
    ∧ (e.work_email_verified = false →
        e.work_email_verification_token = some code →
        (∀ t, e.work_email_verification_sent_at = some t →
          ¬(now > t + 900000)) →
        e.verification_tier = "UNVERIFIED" →
        ∃ e', verify_work_email now code e = .ok e'
          ∧ e'.work_email_verification_token = none
          ∧ e'.work_email_verified = true
          ∧ e'.verification_tier = "EMAIL_VERIFIED"
          ∧ verify_work_email now2 code2 e' = .error .alreadyVerified) := by
  refine ⟨?_, ?_, ?_, ?_, ?_⟩
  · intro hv
    unfold verify_work_email
    rw [if_pos (by simp [hv])]
  · intro hv ht
    unfold verify_work_email
    rw [if_neg (by simp [hv]), ht]
  · intro stored t hv ht hsent hexp
    unfold verify_work_email
    rw [if_neg (by simp [hv]), ht]
    dsimp only
    rw [hsent]
    simp [hexp]
  · intro stored t hv ht hsent hexp hne
    unfold verify_work_email
    rw [if_neg (by simp [hv]), ht]
    dsimp only
    rw [hsent]
    simp only [decide_eq_true_eq]
    rw [if_neg (by simpa using hexp), if_pos hne]
  · intro hv ht hs htier
    refine ⟨_, verify_ok_shape now e code hv ht hs, ?_, ?_, ?_, ?_⟩
    · have := (otp_tier_upgrade_unverified
        { e with
            work_email_verified := true
            work_email_verified_at := some now
            work_email_verification_token := none } htier).2.2.2.2
      simpa using this
    · have := (otp_tier_upgrade_unverified
        { e with
            work_email_verified := true
            work_email_verified_at := some now
            work_email_verification_token := none } htier).2.2.2.1
      simpa using this
    · exact (otp_tier_upgrade_unverified
        { e with
            work_email_verified := true
            work_email_verified_at := some now
            work_email_verification_token := none } htier).1
    · have hv' : (otp_tier_upgrade
        { e with
            work_email_verified := true
            work_email_verified_at := some now
            work_email_verification_token := none }).work_email_verified
          = true := by
        have := (otp_tier_upgrade_unverified
          { e with
              work_email_verified := true
              work_email_verified_at := some now
              work_email_verification_token := none } htier).2.2.2.1
        simpa using this
      unfold verify_work_email
      rw [if_pos (by simp [hv'])]

/-- Witness for C5: confirming `"123456"` at t=2000 succeeds exactly once. -/
theorem otpConfirm_errors_witness :
    ∃ e', verify_work_email 2000 "123456" pendingOtpEmployer = .ok e'
      ∧ e'.work_email_verification_token = none
      ∧ e'.work_email_verified = true
      ∧ e'.verification_tier = "EMAIL_VERIFIED"
      ∧ verify_work_email 9999 "000000" e' = .error .alreadyVerified :=
  (otpConfirm_errors 2000 9999 pendingOtpEmployer "123456" "000000").2.2.2.2
    rfl rfl
    (fun t ht => by
      simp only [pendingOtpEmployer, baseEmployer, create_employer,
        Option.some.injEq] at ht
      omega)
    rfl

/--
C7: the trust score assigned on OTP confirmation is 40 when no (truthy)
company website is provided, 40 when the work-email domain is a generic
consumer provider, 60 when the email base domain equals the website base
domain, and 45 when both are present, not generic, and differ.
-/
theorem otpConfirm_trust_score (now : Int) (e : Employer) (code : String)
    (hv : e.work_email_verified = false)
    (ht : e.work_email_verification_token = some code)
    (hs : ∀ t, e.work_email_verification_sent_at = some t →
      ¬(now > t + 900000))
    (htier : e.verification_tier = "UNVERIFIED") :
    ∃ e', verify_work_email now code e = .ok e'
      ∧ (strTruthy e.company_website = false → e'.trust_score = 40)
      ∧ (∀ web, e.company_website = some web → web ≠ "" →
          ((emailDomain e.work_email ∈ generic_domains →
              e'.trust_score = 40)
           ∧ (emailDomain e.work_email ∉ generic_domains →
               baseDomain (emailDomain e.work_email)
                 = baseDomain (websiteDomain web) →
               e'.trust_score = 60)
           ∧ (emailDomain e.work_email ∉ generic_domains →
               baseDomain (emailDomain e.work_email)
                 ≠ baseDomain (websiteDomain web) →
               e'.trust_score = 45))) := by
  refine ⟨_, verify_ok_shape now e code hv ht hs, ?_, ?_⟩
  · intro hweb
    exact (otp_tier_upgrade_unverified
      { e with
          work_email_verified := true
          work_email_verified_at := some now
          work_email_verification_token := none } htier).2.1 hweb
  · intro web hweb hne
    exact (otp_tier_upgrade_unverified
      { e with
          work_email_verified := true
          work_email_verified_at := some now
          work_email_verification_token := none } htier).2.2.1 web hweb hne

/-- Witness for C7: confirming with no company website scores 40. -/
theorem otpConfirm_trust_score_witness :
    (verify_work_email 2000 "123456" pendingOtpNoSiteEmployer).toOption.map
      (fun e' => e'.trust_score) = some 40 := by
  obtain ⟨e', heq, hnone, _⟩ :=
    otpConfirm_trust_score 2000 pendingOtpNoSiteEmployer "123456" rfl rfl
      (fun t ht => by
        simp only [pendingOtpNoSiteEmployer, pendingOtpEmployer, baseEmployer,
          create_employer, Option.some.injEq] at ht
        omega)
      rfl
  rw [heq]
  simpa [Except.toOption] using hnone (by decide)

/-- `(s ++ t).data = s.data ++ t.data`. -/
theorem string_data_append (s t : String) :
    (s ++ t).data = s.data ++ t.data := by
  cases s
  cases t
  rfl

/-- The characters of `String.join` are the flattening of the pieces. -/
theorem string_join_data (l : List String) :
    (String.join l).data = (l.map String.data).flatten := by
  have aux : ∀ (l : List String) (acc : String),
      (l.foldl (fun r s => r ++ s) acc).data
        = acc.data ++ (l.map String.data).flatten := by
    intro l
    induction l with
    | nil => intro acc; simp
    | cons s t ih =>
      intro acc
      simp only [List.foldl_cons, List.map_cons, List.flatten_cons]
      rw [ih, string_data_append, List.append_assoc]
  exact aux l ""

/-- Flattening singleton digit lists gives one digit per piece. -/
theorem join_singleton_digits (L : List (List Char))
    (h : ∀ x ∈ L, x.length = 1 ∧ ∀ c ∈ x, c.isDigit) :
    L.flatten.length = L.length ∧ ∀ c ∈ L.flatten, c.isDigit := by
  induction L with
  | nil => simp
  | cons x t ih =>
    obtain ⟨hx, hxd⟩ := h x (by simp)
    have ht := ih (fun y hy => h y (by simp [hy]))
    refine ⟨by simp [hx, ht.1]; omega, ?_⟩
    intro c hc
    simp only [List.flatten_cons] at hc
    rcases List.mem_append.mp hc with hc | hc
    · exact hxd c hc
    · exact ht.2 c hc

/-- `Nat.repr` of a single digit is a single ASCII digit character. -/
theorem repr_single_digit :
    ∀ d : Nat, d < 10 →
      (Nat.repr d).data.length = 1 ∧ ∀ c ∈ (Nat.repr d).data, c.isDigit := by
  decide

/-- The generated OTP code is exactly 6 ASCII digits, for any oracle. -/
theorem generate_code_digits (rand : Nat → Nat) :
    (generate_verification_code rand).length = 6
    ∧ ∀ c ∈ (generate_verification_code rand).toList, c.isDigit := by
  have hpieces : ∀ x ∈ ((List.range 6).map
      (fun i => Nat.repr (rand i % 10))).map String.data,
      x.length = 1 ∧ ∀ c ∈ x, c.isDigit := by
    intro x hx
    simp only [List.map_map, List.mem_map] at hx
    obtain ⟨i, _, rfl⟩ := hx
    exact repr_single_digit (rand i % 10) (Nat.mod_lt _ (by norm_num))
  have hjoin := join_singleton_digits _ hpieces
  constructor
  · show (generate_verification_code rand).data.length = 6
    unfold generate_verification_code
    rw [string_join_data]
    simpa using hjoin.1
  · show ∀ c ∈ (generate_verification_code rand).data, c.isDigit
    unfold generate_verification_code
    rw [string_join_data]
    exact hjoin.2

/--
C6: every issued OTP code is exactly 6 ASCII digits; a resend within 120
seconds of `code_sent_at` yields the rate-limit failure carrying a
positive `seconds_remaining` while leaving the employer — including the
pending code and `code_sent_at` — unchanged; and a resend at or after 120
seconds issues a fresh code and updates `code_sent_at`.
-/
theorem otp_code_rate_limit_spec (now : Int) (rand : Nat → Nat)
    (e : Employer) (t : Int) :
    ((generate_verification_code rand).length = 6
      ∧ ∀ c ∈ (generate_verification_code rand).toList, c.isDigit)
    ∧ (e.work_email_verified = false →
        e.work_email_verification_sent_at = some t →
        0 ≤ now - t → now - t < 120000 →
        ∃ r, resend_work_email_verification now rand e = (.rateLimited r, e)
          ∧ 0 < r)
    ∧ (e.work_email_verified = false →
        e.work_email_verification_sent_at = some t →
        120000 ≤ now - t →
        resend_work_email_verification now rand e =
          (.issued (generate_verification_code rand),
            { e with
                work_email_verification_token :=
                  some (generate_verification_code rand)
                work_email_verification_sent_at := some now })) := by
  refine ⟨generate_code_digits rand, ?_, ?_⟩
  · intro hv hsent hnn hlt
    refine ⟨120 - (now - t).tdiv 1000, ?_, ?_⟩
    · unfold resend_work_email_verification
      rw [if_neg (by simp [hv])]
      simp only [hsent]
      rw [if_pos hlt]
    · have hed : (now - t).tdiv 1000 = (now - t) / 1000 :=
        Int.tdiv_eq_ediv hnn (by norm_num)
      rw [hed]
      omega
  · intro hv hsent hge
    unfold resend_work_email_verification
    rw [if_neg (by simp [hv])]
    simp only [hsent]
    rw [if_neg (by omega)]
    rfl

/-- Witness for C6: a resend 60 seconds after issue is refused with 60 s. -/
theorem otp_code_rate_limit_witness :
    ∃ r, resend_work_email_verification 61000 constRand pendingOtpEmployer
        = (.rateLimited r, pendingOtpEmployer) ∧ 0 < r :=
  (otp_code_rate_limit_spec 61000 constRand pendingOtpEmployer 1000).2.1
    rfl rfl (by decide) (by decide)

/-- Members of `updateFirstEmployer` are old members or the image of one. -/
theorem mem_updateFirstEmployer {x : Employer} {eid : Nat}
    {f : Employer → Employer} :
    ∀ {l : List Employer}, x ∈ updateFirstEmployer eid f l →
      x ∈ l ∨ ∃ y ∈ l, x = f y := by
  intro l
  induction l with
  | nil => intro h; simp [updateFirstEmployer] at h
  | cons e es ih =>
    intro h
    rw [updateFirstEmployer] at h
    split_ifs at h with he
    · rcases List.mem_cons.mp h with rfl | hx
      · exact Or.inr ⟨e, List.mem_cons_self e es, rfl⟩
      · exact Or.inl (List.mem_cons_of_mem e hx)
    · rcases List.mem_cons.mp h with rfl | hx
      · exact Or.inl (List.mem_cons_self x es)
      · rcases ih hx with hx | ⟨y, hy, rfl⟩
        · exact Or.inl (List.mem_cons_of_mem e hx)
        · exact Or.inr ⟨y, List.mem_cons_of_mem e hy, rfl⟩

/-- The tier-upgrade block preserves the per-employer invariant. -/
theorem otp_tier_upgrade_inv (e : Employer) (h : EmployerInv e) :
    EmployerInv (otp_tier_upgrade e) := by
  unfold otp_tier_upgrade
  split_ifs with h1
  · cases e.company_website with
    | none => exact ⟨by norm_num, by norm_num, h.2.2⟩
    | some web =>
      dsimp only
      split_ifs <;> exact ⟨by norm_num, by norm_num, h.2.2⟩
  · exact h

/-- `verify_work_email` preserves the per-employer invariant. -/
theorem verify_work_email_inv (now : Int) (code : String) (e e' : Employer)
    (h : EmployerInv e)
    (hok : verify_work_email now code e = .ok e') : EmployerInv e' := by
  unfold verify_work_email at hok
  split_ifs at hok
  cases htok : e.work_email_verification_token with
  | none => rw [htok] at hok; simp at hok
  | some stored =>
    rw [htok] at hok
    dsimp only at hok
    split_ifs at hok
    simp only [Except.ok.injEq] at hok
    subst hok
    exact otp_tier_upgrade_inv _ h

/-- `submit_verification_documents` preserves the per-employer invariant. -/
theorem submit_docs_inv (now : Int) (sub : DocSubmission) (e e' : Employer)
    (h : EmployerInv e)
    (hok : submit_verification_documents now sub e = .ok e') :
    EmployerInv e' := by
  unfold submit_verification_documents at hok
  dsimp only at hok
  split_ifs at hok
  simp only [Except.ok.injEq] at hok
  subst hok
  refine ⟨?_, ?_, h.2.2⟩
  · dsimp only
    have := h.1
    omega
  · dsimp only
    have := h.2.1
    omega

/-- `approve_verification` preserves the per-employer invariant. -/
theorem approve_inv (now : Int) (adminId : Nat) (adminEmail notes : String)
    (e e' : Employer) (h : EmployerInv e)
    (hok : approve_verification now adminId adminEmail notes e = .ok e') :
    EmployerInv e' := by
  unfold approve_verification at hok
  split_ifs at hok
  simp only [Except.ok.injEq] at hok
  subst hok
  exact ⟨by norm_num, by norm_num, h.2.2⟩

/-- `reject_verification` preserves the per-employer invariant. -/
theorem reject_inv (now : Int) (adminId : Nat) (adminEmail notes : String)
    (e e' : Employer) (h : EmployerInv e)
    (hok : reject_verification now adminId adminEmail notes e = .ok e') :
    EmployerInv e' := by
  unfold reject_verification at hok
  split_ifs at hok
  simp only [Except.ok.injEq] at hok
  subst hok
  exact ⟨h.1, h.2.1, h.2.2⟩

/-- `suspend_employer` preserves the per-employer invariant. -/
theorem suspend_inv (now : Int) (adminEmail reason : String) (e : Employer)
    (h : EmployerInv e) :
    EmployerInv (suspend_employer now adminEmail reason e) := by
  unfold suspend_employer
  exact ⟨by norm_num, by norm_num, h.2.2⟩

/-- The resulting state of a resend preserves the per-employer invariant. -/
theorem resend_snd_inv (now : Int) (rand : Nat → Nat) (e : Employer)
    (h : EmployerInv e) :
    EmployerInv (resend_work_email_verification now rand e).2 := by
  unfold resend_work_email_verification
  split_ifs with h1
  · exact h
  · cases e.work_email_verification_sent_at with
    | none => exact h
    | some t =>
      dsimp only
      split_ifs <;> exact h

/-- The employer in a successful employer-route job creation is unchanged. -/
theorem empRoutes_create_ok {role : UserRole} {e : Employer} {d : JobCreate}
    {jid : Nat} {e' : Employer} {j : Job}
    (h : EmployerRoutes.create_job role e d jid = .ok (e', j)) : e' = e := by
  unfold EmployerRoutes.create_job at h
  split_ifs at h
  simp only [Except.ok.injEq, Prod.mk.injEq] at h
  exact h.1.symm

/-- The employer in a successful jobs-API creation has both counters +1. -/
theorem apiRoutes_create_ok {role : UserRole} {e : Employer} {d : JobCreate}
    {jid : Nat} {e' : Employer} {j : Job}
    (h : JobRoutes.create_job role e d jid = .ok (e', j)) :
    e' = { e with
            active_job_posts_count := e.active_job_posts_count + 1
            total_job_posts_count := e.total_job_posts_count + 1 } := by
  unfold JobRoutes.create_job at h
  dsimp only at h
  split_ifs at h
  simp only [Except.ok.injEq, Prod.mk.injEq] at h
  exact h.1.symm

/-- The employer in a successful employer-route close is unchanged. -/
theorem empRoutes_close_ok {role : UserRole} {e : Employer} {j : Job}
    {e' : Employer} {j' : Job}
    (h : EmployerRoutes.close_job role e j = .ok (e', j')) : e' = e := by
  unfold EmployerRoutes.close_job at h
  split_ifs at h
  simp only [Except.ok.injEq, Prod.mk.injEq] at h
  exact h.1.symm

/-- The employer in a successful manual close has the floored decrement. -/
theorem manual_close_ok {now : Int} {reason : String} {e : Employer} {j : Job}
    {e' : Employer} {j' : Job}
    (h : JobRoutes.close_job_manually now reason e j = .ok (e', j')) :
    e' = { e with
            active_job_posts_count := max 0 (e.active_job_posts_count - 1) } := by
  unfold JobRoutes.close_job_manually at h
  split_ifs at h
  simp only [Except.ok.injEq, Prod.mk.injEq] at h
  exact h.1.symm

/-- The employer in a successful jobs-API delete has the floored decrement. -/
theorem api_delete_ok {e : Employer} {j : Job} {e' : Employer} {j' : Job}
    (h : JobRoutes.delete_job e j = .ok (e', j')) :
    e' = { e with
            active_job_posts_count := max 0 (e.active_job_posts_count - 1) } := by
  unfold JobRoutes.delete_job at h
  split_ifs at h
  simp only [Except.ok.injEq, Prod.mk.injEq] at h
  exact h.1.symm

/-- Lifting an invariant-preserving employer operation preserves `WorldInv`. -/
theorem onEmployer_inv {ε : Type} (w : World) (eid : Nat)
    (f : Employer → Except ε Employer)
    (hf : ∀ e e', EmployerInv e → f e = .ok e' → EmployerInv e')
    (h : WorldInv w) : WorldInv (w.onEmployer eid f) := by
  unfold World.onEmployer
  cases hfe : w.findEmployer eid with
  | none => exact h
  | some e =>
    dsimp only
    cases hres : f e with
    | error err => exact h
    | ok e' =>
      intro x hx
      rcases mem_updateFirstEmployer hx with hx | ⟨y, hy, rfl⟩
      · exact h x hx
      · exact hf e _
          (h e (List.mem_of_find?_eq_some hfe)) hres

/-- Lifting an invariant-preserving employer-and-job operation. -/
theorem onEmployerJob_inv {ε : Type} (w : World) (eid jid : Nat)
    (f : Employer → Job → Except ε (Employer × Job))
    (hf : ∀ e j e' j', EmployerInv e → f e j = .ok (e', j') → EmployerInv e')
    (h : WorldInv w) : WorldInv (w.onEmployerJob eid jid f) := by
  unfold World.onEmployerJob
  cases hfe : w.findEmployer eid with
  | none => exact h
  | some e =>
    cases hfj : w.findJob jid with
    | none => exact h
    | some j =>
      dsimp only
      cases hres : f e j with
      | error err => exact h
      | ok p =>
        intro x hx
        rcases mem_updateFirstEmployer hx with hx | ⟨y, hy, hxy⟩
        · exact h x hx
        · subst hxy
          exact hf e j _ _
            (h e (List.mem_of_find?_eq_some hfe)) (by rw [hres])

/-- One sweep-loop iteration preserves `WorldInv`. -/
theorem closeExpiredJob_inv (now : Int) (w : World) (j : Job)
    (h : WorldInv w) : WorldInv (closeExpiredJob now w j) := by
  intro x hx
  rcases mem_updateFirstEmployer hx with hx | ⟨y, hy, rfl⟩
  · exact h x hx
  · have hy' := h y hy
    unfold sweepDecrement
    split_ifs with hc
    · refine ⟨hy'.1, hy'.2.1, ?_⟩
      dsimp only
      omega
    · exact hy'

/-- The sweep's fold preserves `WorldInv`. -/
theorem foldl_closeExpiredJob_inv (now : Int) (L : List Job) :
    ∀ w, WorldInv w → WorldInv (L.foldl (closeExpiredJob now) w) := by
  induction L with
  | nil => exact fun w h => h
  | cons j t ih =>
    intro w h
    exact ih _ (closeExpiredJob_inv now w j h)

/-- `close_expired_jobs` preserves `WorldInv`. -/
theorem close_expired_jobs_inv (now : Int) (w : World) (h : WorldInv w) :
    WorldInv (close_expired_jobs now w) :=
  foldl_closeExpiredJob_inv now _ w h

/-- Every engine operation preserves `WorldInv`. -/
theorem step_inv (w : World) (op : EngineOp) (h : WorldInv w) :
    WorldInv (w.step op) := by
  cases op with
  | register id email website =>
    unfold World.step
    dsimp only
    cases hfe : w.findEmployer id with
    | some e =>
      intro x hx
      rcases mem_updateFirstEmployer hx with hx | ⟨y, hy, rfl⟩
      · exact h x hx
      · exact h y hy
    | none =>
      intro x hx
      rcases List.mem_append.mp hx with hx | hx
      · exact h x hx
      · have hx' : x = create_employer id email website := by simpa using hx
        subst hx'
        refine ⟨?_, ?_, ?_⟩ <;> norm_num [create_employer]
  | issueOtp now rand eid =>
    refine onEmployer_inv w eid _ (fun e e' he hok => ?_) h
    simp only [Except.ok.injEq] at hok
    subst hok
    exact he
  | confirmOtp now eid code =>
    exact onEmployer_inv w eid _
      (fun e e' he hok => verify_work_email_inv now code e e' he hok) h
  | resendOtp now rand eid =>
    refine onEmployer_inv w eid _ (fun e e' he hok => ?_) h
    simp only [Except.ok.injEq] at hok
    subst hok
    exact resend_snd_inv now rand e he
  | submitDocs now eid sub =>
    exact onEmployer_inv w eid _
      (fun e e' he hok => submit_docs_inv now sub e e' he hok) h
  | adminApprove now eid adminId adminEmail notes =>
    exact onEmployer_inv w eid _
      (fun e e' he hok => approve_inv now adminId adminEmail notes e e' he hok) h
  | adminReject now eid adminId adminEmail notes =>
    exact onEmployer_inv w eid _
      (fun e e' he hok => reject_inv now adminId adminEmail notes e e' he hok) h
  | adminSuspend now eid adminEmail reason =>
    refine onEmployer_inv w eid _ (fun e e' he hok => ?_) h
    simp only [Except.ok.injEq] at hok
    subst hok
    exact suspend_inv now adminEmail reason e he
  | createJobEmp role eid data jid =>
    unfold World.step
    dsimp only
    cases hfe : w.findEmployer eid with
    | none => exact h
    | some e =>
      dsimp only
      cases hres : EmployerRoutes.create_job role e data jid with
      | error err => exact h
      | ok p =>
        obtain ⟨e', j⟩ := p
        intro x hx
        rcases mem_updateFirstEmployer hx with hx | ⟨y, hy, rfl⟩
        · exact h x hx
        · rw [empRoutes_create_ok hres]
          exact h e (List.mem_of_find?_eq_some hfe)
  | createJobApi role eid data jid =>
    unfold World.step
    dsimp only
    cases hfe : w.findEmployer eid with
    | none => exact h
    | some e =>
      dsimp only
      cases hres : JobRoutes.create_job role e data jid with
      | error err => exact h
      | ok p =>
        obtain ⟨e', j⟩ := p
        intro x hx
        rcases mem_updateFirstEmployer hx with hx | ⟨y, hy, rfl⟩
        · exact h x hx
        · rw [apiRoutes_create_ok hres]
          have he := h e (List.mem_of_find?_eq_some hfe)
          exact ⟨he.1, he.2.1, by have h3 := he.2.2; dsimp only; omega⟩
  | closeJobEmp role eid jid =>
    refine onEmployerJob_inv w eid jid _
      (fun e j e' j' he hok => ?_) h
    rw [empRoutes_close_ok hok]
    exact he
  | closeJobManual now eid jid reason =>
    refine onEmployerJob_inv w eid jid _
      (fun e j e' j' he hok => ?_) h
    rw [manual_close_ok hok]
    exact ⟨he.1, he.2.1, by have h3 := he.2.2; dsimp only; omega⟩
  | deleteJobApi eid jid =>
    refine onEmployerJob_inv w eid jid _
      (fun e j e' j' he hok => ?_) h
    rw [api_delete_ok hok]
    exact ⟨he.1, he.2.1, by have h3 := he.2.2; dsimp only; omega⟩
  | sweep now =>
    exact close_expired_jobs_inv now w h

/--
C4: for every starting state satisfying the invariants and every sequence
of engine operations (registration, OTP issue / confirmation / resend,
document submission, admin approve / reject / suspend, job creation /
closure / deletion, expiry sweep), every employer satisfies
`0 ≤ trust_score ≤ 100` and `active_job_posts_count ≥ 0` after each
operation.
-/
theorem engine_invariants (ops : List EngineOp) (w : World)
    (h : WorldInv w) : WorldInv (ops.foldl World.step w) := by
  induction ops generalizing w with
  | nil => exact h
  | cons op t ih => exact ih _ (step_inv w op h)

/-- Witness for C4: a concrete run from the empty world. -/
theorem engine_invariants_witness :
    WorldInv ([EngineOp.register 1 "hr@acme.com" (some "https://acme.com"),
      EngineOp.adminSuspend 5 1 "admin@jobscape.com" "spam",
      EngineOp.sweep 10].foldl World.step
        { employers := [], jobs := [] }) :=
  engine_invariants _ { employers := [], jobs := [] } (by decide)

/-- The guarded decrement does not change the employer's id. -/
theorem sweepDecrement_id (e : Employer) : (sweepDecrement e).id = e.id := by
  unfold sweepDecrement
  split_ifs <;> rfl

/-- Finding by the updated id after `updateFirstEmployer` maps the result. -/
theorem find_updateFirstEmployer_eq (eid : Nat) (f : Employer → Employer)
    (hid : ∀ e, (f e).id = e.id) :
    ∀ l : List Employer,
      (updateFirstEmployer eid f l).find? (fun e => e.id = eid)
        = (l.find? (fun e => e.id = eid)).map f := by
  intro l
  induction l with
  | nil => rfl
  | cons e es ih =>
    rw [updateFirstEmployer]
    split_ifs with he
    · rw [List.find?_cons_of_pos _ (by simp [hid, he]),
        List.find?_cons_of_pos _ (by simp [he])]
      rfl
    · rw [List.find?_cons_of_neg _ (by simp [he]),
        List.find?_cons_of_neg _ (by simp [he]), ih]

/-- Finding by a different id is unaffected by `updateFirstEmployer`. -/
theorem find_updateFirstEmployer_ne (eid eid' : Nat) (hne : eid' ≠ eid)
    (f : Employer → Employer) (hid : ∀ e, (f e).id = e.id) :
    ∀ l : List Employer,
      (updateFirstEmployer eid' f l).find? (fun e => e.id = eid)
        = l.find? (fun e => e.id = eid) := by
  intro l
  induction l with
  | nil => rfl
  | cons e es ih =>
    rw [updateFirstEmployer]
    split_ifs with he
    · rw [List.find?_cons_of_neg _ (by simp [hid, he]; omega),
        List.find?_cons_of_neg _ (by simp [he]; omega)]
    · by_cases hp : e.id = eid
      · rw [List.find?_cons_of_pos _ (by simp [hp]),
          List.find?_cons_of_pos _ (by simp [hp])]
      · rw [List.find?_cons_of_neg _ (by simp [hp]),
          List.find?_cons_of_neg _ (by simp [hp]), ih]

/-- Employer lookup after one sweep iteration. -/
theorem findEmployer_closeExpiredJob (now : Int) (w : World) (j : Job)
    (eid : Nat) :
    (closeExpiredJob now w j).findEmployer eid
      = if j.employer_id = eid then (w.findEmployer eid).map sweepDecrement
        else w.findEmployer eid := by
  unfold closeExpiredJob World.findEmployer
  dsimp only
  split_ifs with h
  · subst h
    exact find_updateFirstEmployer_eq _ sweepDecrement sweepDecrement_id _
  · exact find_updateFirstEmployer_ne _ _ h sweepDecrement sweepDecrement_id _

/--
Employer lookup after folding the sweep over a snapshot: the guarded
decrement is applied once per snapshot row owned by the employer.
-/
theorem findEmployer_foldl_sweep (now : Int) :
    ∀ (L : List Job) (w : World) (eid : Nat) (e : Employer),
      w.findEmployer eid = some e →
      (L.foldl (closeExpiredJob now) w).findEmployer eid
        = some (sweepDecrement^[L.countP (fun j => j.employer_id = eid)] e) := by
  intro L
  induction L with
  | nil =>
    intro w eid e he
    simpa using he
  | cons j t ih =>
    intro w eid e he
    rw [List.foldl_cons]
    by_cases hj : j.employer_id = eid
    · have h1 : (closeExpiredJob now w j).findEmployer eid
          = some (sweepDecrement e) := by
        rw [findEmployer_closeExpiredJob, if_pos hj, he]
        rfl
      rw [ih _ _ _ h1, List.countP_cons_of_pos _ _ (by simp [hj]),
        Function.iterate_succ_apply]
    · have h1 : (closeExpiredJob now w j).findEmployer eid = some e := by
        rw [findEmployer_closeExpiredJob, if_neg hj, he]
      rw [ih _ _ _ h1, List.countP_cons_of_neg _ _ (by simp [hj])]

/-- The guarded decrement when the counter is positive. -/
theorem sweepDecrement_pos (e : Employer)
    (h : e.active_job_posts_count > 0) :
    sweepDecrement e
      = { e with active_job_posts_count := e.active_job_posts_count - 1 } := by
  unfold sweepDecrement
  rw [if_pos h]

/-- The guarded decrement when the counter is not positive. -/
theorem sweepDecrement_nonpos (e : Employer)
    (h : ¬e.active_job_posts_count > 0) : sweepDecrement e = e := by
  unfold sweepDecrement
  rw [if_neg h]

/-- Iterating the guarded decrement floors the counter at 0. -/
theorem sweepDecrement_iterate (n : Nat) :
    ∀ e : Employer, 0 ≤ e.active_job_posts_count →
      (sweepDecrement^[n] e).active_job_posts_count
        = max 0 (e.active_job_posts_count - n) := by
  induction n with
  | zero =>
    intro e he
    simp only [Function.iterate_zero, id_eq]
    omega
  | succ n ih =>
    intro e he
    rw [Function.iterate_succ_apply]
    by_cases hc : e.active_job_posts_count > 0
    · rw [sweepDecrement_pos e hc, ih _ (by dsimp only; omega)]
      dsimp only
      push_cast
      omega
    · rw [sweepDecrement_nonpos e hc, ih e he]
      push_cast
      omega

/-- After the sweep's fold every job covered by the snapshot is closed. -/
theorem sweep_fold_closes (now : Int) :
    ∀ (L : List Job) (w : World),
      (∀ j ∈ w.jobs, expiredPred now j = true → ∃ l ∈ L, l.id = j.id) →
      ∀ j' ∈ (L.foldl (closeExpiredJob now) w).jobs,
        expiredPred now j' = false := by
  intro L
  induction L with
  | nil =>
    intro w hP j' hj'
    simp only [List.foldl_nil] at hj'
    by_contra hcon
    rw [Bool.not_eq_false] at hcon
    obtain ⟨l, hl, _⟩ := hP j' hj' hcon
    exact absurd hl (List.not_mem_nil l)
  | cons l t ih =>
    intro w hP
    rw [List.foldl_cons]
    apply ih
    intro j hj hexp
    obtain ⟨k, hk, hjk⟩ := List.mem_map.mp hj
    by_cases hkid : k.id = l.id
    · rw [if_pos hkid] at hjk
      subst hjk
      simp [expiredPred] at hexp
    · rw [if_neg hkid] at hjk
      subst hjk
      obtain ⟨m, hm, hmid⟩ := hP k hk hexp
      rcases List.mem_cons.mp hm with rfl | hm
      · exact absurd (hmid ▸ hkid) (fun h => h rfl)
      · exact ⟨m, hm, hmid⟩

/-- The sweep's fold does not add or remove job rows. -/
theorem sweep_fold_length (now : Int) :
    ∀ (L : List Job) (w : World),
      (L.foldl (closeExpiredJob now) w).jobs.length = w.jobs.length := by
  intro L
  induction L with
  | nil => intro w; rfl
  | cons l t ih =>
    intro w
    rw [List.foldl_cons, ih]
    exact List.length_map _ _

/--
C8 (amended): the sweep closes every job whose deadline has passed (no job
of the swept world is still eligible), preserves the set of job rows, and
decrements the owning employer's `active_job_posts_count` once per such
job except that the decrement is skipped when the counter is already 0 —
the counter lands on `max 0 (count − #eligible jobs owned)`; running the
sweep again immediately afterwards changes nothing.
-/
theorem sweep_spec (now : Int) (w : World) (eid : Nat) (e : Employer)
    (he : w.findEmployer eid = some e)
    (hc : 0 ≤ e.active_job_posts_count) :
    close_expired_jobs now (close_expired_jobs now w) = close_expired_jobs now w
    ∧ (∀ j' ∈ (close_expired_jobs now w).jobs, expiredPred now j' = false)
    ∧ (close_expired_jobs now w).jobs.length = w.jobs.length
    ∧ ∃ e', (close_expired_jobs now w).findEmployer eid = some e'
        ∧ e'.active_job_posts_count
            = max 0 (e.active_job_posts_count -
                ((w.jobs.filter (expiredPred now)).countP
                  (fun j => j.employer_id = eid))) := by
  have hall : ∀ j' ∈ (close_expired_jobs now w).jobs,
      expiredPred now j' = false := by
    unfold close_expired_jobs
    apply sweep_fold_closes
    intro j hj hexp
    exact ⟨j, List.mem_filter.mpr ⟨hj, hexp⟩, rfl⟩
  refine ⟨?_, hall, sweep_fold_length now _ w, ?_⟩
  · conv_lhs => rw [close_expired_jobs]
    rw [List.filter_eq_nil_iff.mpr (by simpa using hall)]
    rfl
  · refine ⟨_, findEmployer_foldl_sweep now _ w eid e he, ?_⟩
    exact sweepDecrement_iterate _ e hc

/--
C8 counterexample: an employer with counter 0 owning an expired open job —
the sweep closes the job but performs no decrement at all (the counter
stays 0 rather than being decremented exactly once for that job).
-/
theorem sweep_cex :
    expiredPred 10 expiredJob = true
    ∧ zeroCountEmployer.active_job_posts_count = 0
    ∧ ((close_expired_jobs 10 zeroCountWorld).findJob 1).map
        (fun j => j.is_closed) = some true
    ∧ ((close_expired_jobs 10 zeroCountWorld).findEmployer 1).map
        (fun e => e.active_job_posts_count) = some 0
    ∧ (0 : Int) ≠ zeroCountEmployer.active_job_posts_count - 1 := by
  refine ⟨rfl, rfl, rfl, rfl, by decide⟩

/-- Witness for C8 on the world whose counter matches its expired job. -/
theorem sweep_spec_witness :
    close_expired_jobs 10 (close_expired_jobs 10 oneCountWorld)
      = close_expired_jobs 10 oneCountWorld
    ∧ (∀ j' ∈ (close_expired_jobs 10 oneCountWorld).jobs,
        expiredPred 10 j' = false)
    ∧ (close_expired_jobs 10 oneCountWorld).jobs.length
        = oneCountWorld.jobs.length
    ∧ ∃ e', (close_expired_jobs 10 oneCountWorld).findEmployer 1 = some e'
        ∧ e'.active_job_posts_count
            = max 0 (oneActiveJobEmployer.active_job_posts_count -
                ((oneCountWorld.jobs.filter (expiredPred 10)).countP
                  (fun j => j.employer_id = 1))) :=
  sweep_spec 10 oneCountWorld 1 oneActiveJobEmployer rfl (by decide)

end Jobscape
